import Mathlib

/-!
Verification of `server.py`, a local static file server for the Dynamic Event
Scheduler frontend.  The program is embedded shallowly:

* the request handler (`CustomHTTPRequestHandler`) becomes a pure function
  from a filesystem, a method and a path to an HTTP `Response`;
* `main()` becomes a pure function from its environment (directory contents,
  possible exceptions raised at each effectful step, interrupt arrival) to a
  `RunResult`: the ordered trace of observable events plus the process outcome.

The base class `http.server.SimpleHTTPRequestHandler` and the other standard
library facilities are external collaborators, not code of this repository;
where their behaviour decides a claim they are modelled from the specification
text, and the corresponding definitions say so in their doc comments.
-/

set_option linter.unusedVariables false

namespace EventSchedulerServer

/-- A filesystem entry directly under the document root: a regular file with
its exact byte contents, or a directory. -/
inductive Entry where
  | file (contents : List Nat)
  | dir
deriving DecidableEq

/-- The contents of one directory: an association list from entry name to
entry.  The first binding of a name wins. -/
abbrev FileSystem := List (String × Entry)

/-- Look an entry name up in a directory listing. -/
def fsLookup : FileSystem → String → Option Entry
  | [], _ => none
  | (n, e) :: rest, name => if n = name then some e else fsLookup rest name

/-- `os.path.exists(name)`: true exactly when some entry (of any kind, file or
directory) is present under that name. -/
def osPathExists (fs : FileSystem) (name : String) : Bool :=
  (fsLookup fs name).isSome

/-- The Python exceptions this program can meet.  `exception msg` stands for
any instance of class `Exception`; `keyboardInterrupt` stands for
`KeyboardInterrupt`, which derives from `BaseException` but not from
`Exception`. -/
inductive PyExc where
  | exception (msg : String)
  | keyboardInterrupt
deriving DecidableEq

/-- Whether an `except Exception` clause catches the raised value:
`KeyboardInterrupt` is not an `Exception` instance, so it is not caught. -/
def isException : PyExc → Bool
  | .exception _ => true
  | .keyboardInterrupt => false

/-- An HTTP response: status code, the finalized header list in send order,
and the body bytes. -/
structure Response where
  status : Nat
  headers : List (String × String)
  body : List Nat
deriving DecidableEq

/-- The three CORS headers the handler adds, with their exact values
(`server.py` lines 21 to 23). -/
def corsHeaders : List (String × String) :=
  [("Access-Control-Allow-Origin", "*"),
   ("Access-Control-Allow-Methods", "GET, POST, OPTIONS"),
   ("Access-Control-Allow-Headers", "Content-Type")]

/-- `CustomHTTPRequestHandler.end_headers` (`server.py` lines 19 to 24):
append the three CORS headers after whatever headers the base handler already
buffered, then perform the base class finalization, which emits the buffer
unchanged.  Every response of the base handler finalizes its headers through
this override. -/
def end_headers (buffered : List (String × String)) : List (String × String) :=
  buffered ++ corsHeaders

/-- Request methods: the base handler implements GET and HEAD, the subclass
adds OPTIONS, and any other method name falls through to the base dispatch. -/
inductive Method where
  | GET
  | HEAD
  | OPTIONS
  | other (name : String)
deriving DecidableEq

/-- Modelled from the spec: the external base handler maps the request path to
a path relative to the document root ("maps incoming GET/OPTIONS requests to
files relative to a fixed root directory"). -/
def translate_path (p : String) : String :=
  match p.data with
  | [] => p
  | c :: rest => if c = '/' then String.mk rest else p

/-- Modelled from the spec: the content type the external base handler infers
from the file name ("200 with file contents and inferred content type"). -/
def guessContentType (p : String) : String :=
  if p.endsWith ".html" then "text/html"
  else if p.endsWith ".css" then "text/css"
  else if p.endsWith ".js" then "text/javascript"
  else "application/octet-stream"

/-- Modelled from the spec: the generated explanation page of the standard
error response; its exact markup is not specified and no claim depends on
it. -/
def errorBody (code : Nat) : List Nat :=
  (("Error response: " ++ toString code).toUTF8.toList).map UInt8.toNat

/-- Modelled from the spec: `send_error` of the external base handler, the
"standard error responses (e.g., 404)" path.  It buffers the standard error
headers and body, and finalizes through the overridden `end_headers`. -/
def send_error (code : Nat) : Response :=
  { status := code
    headers := end_headers
      [("Content-Type", "text/html;charset=utf-8"),
       ("Content-Length", toString (errorBody code).length)]
    body := errorBody code }

/-- Modelled from the spec: GET handling of the external base handler
(`http.server.SimpleHTTPRequestHandler`), which the subclass inherits
unchanged: resolve the path under the document root; a regular file is served
as 200 with its exact bytes and an inferred content type; an absent path
yields the standard not-found response; a directory yields the base redirect
response (no claim depends on the directory branch).  Every branch finalizes
its headers through the overridden `end_headers`. -/
def do_GET (fs : FileSystem) (path : String) : Response :=
  match fsLookup fs (translate_path path) with
  | some (Entry.file contents) =>
      { status := 200
        headers := end_headers
          [("Content-Type", guessContentType path),
           ("Content-Length", toString contents.length)]
        body := contents }
  | some Entry.dir =>
      { status := 301
        headers := end_headers [("Location", path ++ "/")]
        body := [] }
  | none => send_error 404

/-- `CustomHTTPRequestHandler.do_OPTIONS` (`server.py` lines 26 to 29):
`send_response(200)` then `end_headers()`; no body is written and the
filesystem is never consulted. -/
def do_OPTIONS : Response :=
  { status := 200, headers := end_headers [], body := [] }

/-- One request against the handler: OPTIONS goes to the override, GET and
HEAD go to the inherited static file logic (HEAD without a body), and any
other method is answered by the base dispatch with the standard 501
Unsupported method error (modelled from the spec: "any other method: behavior
is whatever the underlying static-file capability defines by default"). -/
def handleRequest (fs : FileSystem) (m : Method) (path : String) : Response :=
  match m with
  | Method.OPTIONS => do_OPTIONS
  | Method.GET => do_GET fs path
  | Method.HEAD => { do_GET fs path with body := [] }
  | Method.other _ => send_error 501

/-- `PORT = 8000` (`server.py` line 15). -/
def PORT : Nat := 8000

/-- `HOST = 'localhost'` (`server.py` line 16). -/
def HOST : String := "localhost"

/-- `required_files` (`server.py` line 37). -/
def required_files : List String := ["index.html", "styles.css", "script.js"]

/-- `missing_files` (`server.py` line 38): the required names for which
`os.path.exists` is false in the current working directory. -/
def missing_files (fs : FileSystem) : List String :=
  required_files.filter (fun f => !osPathExists fs f)

/-- The observable events of one run of `main()`, in order. -/
inductive Event where
  | chdir (dir : String)
  | printMsg (s : String)
  | bind (host : String) (port : Nat)
  | browserOpen (url : String)
  | serve
  | closeSocket
deriving DecidableEq

/-- How the process ends: still serving (no interrupt ever arrives), a normal
return from `main` (process exit status 0), `sys.exit(code)`, or an exception
propagating out of `main` uncaught. -/
inductive Outcome where
  | running
  | exitSuccess
  | exitFailure (code : Nat)
  | uncaught (e : PyExc)
deriving DecidableEq

/-- CPython terminates with a non-zero status when an exception propagates out
of the program uncaught, and `sys.exit(code)` exits with `code`. -/
def exitsNonZero : Outcome → Bool
  | Outcome.running => false
  | Outcome.exitSuccess => false
  | Outcome.exitFailure code => code != 0
  | Outcome.uncaught _ => true

/-- The trace of one run: the ordered events and the outcome. -/
structure RunResult where
  events : List Event
  outcome : Outcome
deriving DecidableEq

/-- The URL passed to `webbrowser.open` (`server.py` line 62). -/
def serverURL : String := "http://" ++ HOST ++ ":" ++ toString PORT

/-- The console message naming the missing files (`server.py` line 41). -/
def missingMsg (missing : List String) : String :=
  "❌ Missing required files: " ++ String.intercalate ", " missing

/-- The second console message of the failure path (`server.py` line 42). -/
def hintMsg : String :=
  "Please ensure all frontend files are in the same directory as this server script."

/-- The startup banner lines (`server.py` lines 47 to 58), in print order. -/
def bannerMsgs (scriptDir : String) : List String :=
  ["🚀 Dynamic Event Scheduler Server Starting...",
   "📁 Serving files from: " ++ scriptDir,
   "🌐 Server running at: http://" ++ HOST ++ ":" ++ toString PORT,
   "📱 Open your browser and go to: http://localhost:" ++ toString PORT,
   "\n✨ Features available:",
   "   • Interactive event scheduling",
   "   • Visual conflict graph",
   "   • Timeline view",
   "   • Real-time updates",
   "   • Export functionality",
   "\nPress Ctrl+C to stop the server",
   String.mk (List.replicate 50 '=')]

/-- The first shutdown message of the interrupt handler (`server.py`
line 69). -/
def stopMsg : String := "\n\n🛑 Server stopped by user"

/-- The second shutdown message of the interrupt handler (`server.py`
line 70). -/
def thanksMsg : String := "Thank you for using Dynamic Event Scheduler!"

/-- `httpd.serve_forever()` under `try/except KeyboardInterrupt`, inside the
`TCPServer` with-block (`server.py` lines 66 to 70): without an interrupt the
accept loop never returns; when a `KeyboardInterrupt` arrives in the loop it
is caught, the two shutdown messages are printed, then leaving the with-block
closes the listening socket and `main` returns normally. -/
def serveLoop (evs : List Event) (interrupted : Bool) : RunResult :=
  if interrupted then
    { events := evs ++ [Event.serve, Event.printMsg stopMsg,
                        Event.printMsg thanksMsg, Event.closeSocket]
      outcome := Outcome.exitSuccess }
  else
    { events := evs ++ [Event.serve], outcome := Outcome.running }

/-- `main()` (`server.py` lines 31 to 70).

Environment parameters: `world` maps a directory path to its contents;
`invokedFrom` is the working directory of the process at startup; `scriptDir`
is the directory containing `server.py` itself (`Path(__file__).parent`).
Nondeterminism parameters: `bannerExc = some (k, e)` means exception `e` is
raised (an interrupt arrives) after `k` banner lines are printed;
`browserExc = some e` means the `webbrowser.open` call raises `e`;
`serveInterrupted` says whether a `KeyboardInterrupt` arrives while
`serve_forever` runs.

The steps mirror the source: `os.chdir(script_dir)` replaces `invokedFrom` as
the working directory, so every later relative lookup reads
`world scriptDir`; the required-file gate prints and calls `sys.exit(1)`
before any socket is created when files are missing; otherwise the
`TCPServer` binds `(HOST, PORT)` and its with-block closes the socket however
the block is left; the banner is printed; `webbrowser.open` is guarded by
`except Exception: pass`, which does not catch `KeyboardInterrupt`; then the
serve loop runs. -/
def mainRun (world : String → FileSystem) (invokedFrom scriptDir : String)
    (bannerExc : Option (Nat × PyExc)) (browserExc : Option PyExc)
    (serveInterrupted : Bool) : RunResult :=
  let cwd : String := scriptDir
  let ev0 : List Event := [Event.chdir scriptDir]
  let missing := missing_files (world cwd)
  if missing.isEmpty then
    let evBind := ev0 ++ [Event.bind HOST PORT]
    match bannerExc with
    | some (k, e) =>
        { events := evBind ++ ((bannerMsgs scriptDir).take k).map Event.printMsg
                      ++ [Event.closeSocket]
          outcome := Outcome.uncaught e }
    | none =>
        let evOpen := evBind ++ (bannerMsgs scriptDir).map Event.printMsg
                        ++ [Event.browserOpen serverURL]
        match browserExc with
        | some e =>
            if isException e then
              serveLoop evOpen serveInterrupted
            else
              { events := evOpen ++ [Event.closeSocket]
                outcome := Outcome.uncaught e }
        | none => serveLoop evOpen serveInterrupted
  else
    { events := ev0 ++ [Event.printMsg (missingMsg missing), Event.printMsg hintMsg]
      outcome := Outcome.exitFailure 1 }

/-- A concrete document root holding all three required files. -/
def fsAll : FileSystem :=
  [("index.html", Entry.file [60, 104, 116, 109, 108, 62]),
   ("styles.css", Entry.file [42]),
   ("script.js", Entry.file [59])]

/-- A concrete document root where all three required names are directories:
`os.path.exists` is still true for each. -/
def fsDirs : FileSystem :=
  [("index.html", Entry.dir), ("styles.css", Entry.dir), ("script.js", Entry.dir)]

/-! ## Theorems about the request handler -/

/-- C1: Every HTTP response the server sends, for every request method and
every response status (including error responses such as 404), carries all
three CORS headers with exactly the documented values, appended after the
headers the base handler buffered, before the base class finalization emits
them. -/
theorem cors_on_every_response (fs : FileSystem) (m : Method) (path : String) :
    ∃ base, (handleRequest fs m path).headers =
      base ++ [("Access-Control-Allow-Origin", "*"),
               ("Access-Control-Allow-Methods", "GET, POST, OPTIONS"),
               ("Access-Control-Allow-Headers", "Content-Type")] := by
  cases m with
  | OPTIONS => exact ⟨[], rfl⟩
  | GET =>
      unfold handleRequest do_GET
      rcases h : fsLookup fs (translate_path path) with _ | e
      · exact ⟨_, rfl⟩
      · cases e
        · exact ⟨_, rfl⟩
        · exact ⟨_, rfl⟩
  | HEAD =>
      unfold handleRequest do_GET
      rcases h : fsLookup fs (translate_path path) with _ | e
      · exact ⟨_, rfl⟩
      · cases e
        · exact ⟨_, rfl⟩
        · exact ⟨_, rfl⟩
  | other name => exact ⟨_, rfl⟩

/-- C2: An OPTIONS request, to any path and independently of the filesystem
state, bypasses file resolution and is answered with status 200, an empty
body, and the three CORS headers. -/
theorem options_preflight (fs fs2 : FileSystem) (path path2 : String) :
    (handleRequest fs Method.OPTIONS path).status = 200 ∧
    (handleRequest fs Method.OPTIONS path).body = [] ∧
    (∃ base, (handleRequest fs Method.OPTIONS path).headers = base ++ corsHeaders) ∧
    handleRequest fs Method.OPTIONS path = handleRequest fs2 Method.OPTIONS path2 :=
  ⟨rfl, rfl, ⟨[], rfl⟩, rfl⟩

/-- C4: GET is delegated to the base static file handler: with `index.html`
present as a file in the document root, `GET /index.html` answers 200 with
the exact byte contents; with an absent path, GET answers 404; both responses
carry the CORS headers. -/
theorem get_delegation (fs : FileSystem) (bytes : List Nat) (p : String)
    (hidx : fsLookup fs "index.html" = some (Entry.file bytes))
    (habs : fsLookup fs (translate_path p) = none) :
    ((handleRequest fs Method.GET "/index.html").status = 200 ∧
     (handleRequest fs Method.GET "/index.html").body = bytes ∧
     (∃ base, (handleRequest fs Method.GET "/index.html").headers
        = base ++ corsHeaders)) ∧
    ((handleRequest fs Method.GET p).status = 404 ∧
     (∃ base, (handleRequest fs Method.GET p).headers = base ++ corsHeaders)) := by
  have ht : translate_path "/index.html" = "index.html" := by decide
  constructor
  · unfold handleRequest do_GET
    rw [ht, hidx]
    exact ⟨rfl, rfl, ⟨_, rfl⟩⟩
  · unfold handleRequest do_GET
    rw [habs]
    exact ⟨rfl, ⟨_, rfl⟩⟩

/-- Witness for C4 at a concrete filesystem: `fsAll` holds `index.html` with
bytes `[60, 104, 116, 109, 108, 62]`, and `/does-not-exist.xyz` is absent. -/
theorem get_delegation_witness :
    ((handleRequest fsAll Method.GET "/index.html").status = 200 ∧
     (handleRequest fsAll Method.GET "/index.html").body
        = [60, 104, 116, 109, 108, 62] ∧
     (∃ base, (handleRequest fsAll Method.GET "/index.html").headers
        = base ++ corsHeaders)) ∧
    ((handleRequest fsAll Method.GET "/does-not-exist.xyz").status = 404 ∧
     (∃ base, (handleRequest fsAll Method.GET "/does-not-exist.xyz").headers
        = base ++ corsHeaders)) :=
  get_delegation fsAll [60, 104, 116, 109, 108, 62] "/does-not-exist.xyz"
    (by decide) (by decide)

/-! ## Theorems about `main` -/

/-- Helper: once the required-file gate passes, every continuation of `main`
reaches the bind of `(HOST, PORT)`, whatever exception or interrupt follows. -/
theorem bind_mem_of_gate_passes (world : String → FileSystem)
    (invokedFrom scriptDir : String) (bannerExc : Option (Nat × PyExc))
    (browserExc : Option PyExc) (si : Bool)
    (hfs : missing_files (world scriptDir) = []) :
    Event.bind HOST PORT ∈
      (mainRun world invokedFrom scriptDir bannerExc browserExc si).events := by
  rcases bannerExc with _ | ⟨k, e⟩
  · rcases browserExc with _ | e2
    · cases si <;> simp [mainRun, serveLoop, hfs]
    · cases e2 <;> cases si <;> simp [mainRun, serveLoop, hfs, isException]
  · simp [mainRun, hfs]

/-- Helper: a banner print prefix contains only print events, so no event of
another constructor is in it. -/
theorem not_mem_printMsg_map (e : Event) (k : Nat) (l : List String)
    (he : ∀ s, Event.printMsg s ≠ e) :
    e ∉ List.take k (List.map Event.printMsg l) := by
  intro hm
  rcases List.mem_map.1 (List.take_subset k _ hm) with ⟨a, -, ha⟩
  exact he a ha

/-- C3: With any of the required files missing, `main` prints the message
naming exactly the missing files, exits via `sys.exit(1)` (non-zero), and
never binds a socket; with all three present, the gate passes and the bind
happens. -/
theorem startup_gate (world : String → FileSystem) (invokedFrom scriptDir : String)
    (bannerExc : Option (Nat × PyExc)) (browserExc : Option PyExc) (si : Bool) :
    (missing_files (world scriptDir) ≠ [] →
      (mainRun world invokedFrom scriptDir bannerExc browserExc si).outcome
          = Outcome.exitFailure 1 ∧
      Event.printMsg (missingMsg (missing_files (world scriptDir)))
          ∈ (mainRun world invokedFrom scriptDir bannerExc browserExc si).events ∧
      ∀ h p, Event.bind h p
          ∉ (mainRun world invokedFrom scriptDir bannerExc browserExc si).events) ∧
    (missing_files (world scriptDir) = [] →
      Event.bind HOST PORT
          ∈ (mainRun world invokedFrom scriptDir bannerExc browserExc si).events) := by
  constructor
  · intro hne
    have hemp : (missing_files (world scriptDir)).isEmpty = false := by
      rcases hcase : missing_files (world scriptDir) with _ | ⟨a, l⟩
      · exact absurd hcase hne
      · rfl
    simp [mainRun, hemp]
  · intro hfs
    exact bind_mem_of_gate_passes world invokedFrom scriptDir bannerExc browserExc si hfs

/-- Witness for C3: with an empty document root the run exits with status 1
after printing the message naming all three files; with `fsAll` the bind
event is reached. -/
theorem startup_gate_witness :
    ((mainRun (fun _ => []) "/" "/app" none none false).outcome
        = Outcome.exitFailure 1 ∧
     Event.printMsg (missingMsg (missing_files []))
        ∈ (mainRun (fun _ => []) "/" "/app" none none false).events ∧
     ∀ h p, Event.bind h p
        ∉ (mainRun (fun _ => []) "/" "/app" none none false).events) ∧
    Event.bind HOST PORT ∈ (mainRun (fun _ => fsAll) "/" "/app" none none true).events :=
  ⟨(startup_gate (fun _ => []) "/" "/app" none none false).1 (by decide),
   (startup_gate (fun _ => fsAll) "/" "/app" none none true).2 (by decide)⟩

/-- C5: A `KeyboardInterrupt` arriving while `serve_forever` runs ends the
run gracefully: the outcome is a normal return (process exit status 0), the
serve loop was entered and then left, the shutdown acknowledgment is
printed, and the last event is the release of the listening socket. -/
theorem graceful_shutdown (world : String → FileSystem)
    (invokedFrom scriptDir : String) (browserExc : Option PyExc)
    (hfs : missing_files (world scriptDir) = [])
    (hbr : ∀ e, browserExc = some e → isException e = true) :
    (mainRun world invokedFrom scriptDir none browserExc true).outcome
        = Outcome.exitSuccess ∧
    Event.serve ∈ (mainRun world invokedFrom scriptDir none browserExc true).events ∧
    Event.printMsg stopMsg
        ∈ (mainRun world invokedFrom scriptDir none browserExc true).events ∧
    (mainRun world invokedFrom scriptDir none browserExc true).events.getLast?
        = some Event.closeSocket := by
  rcases browserExc with _ | e
  · refine ⟨by simp [mainRun, serveLoop, hfs], by simp [mainRun, serveLoop, hfs],
      by simp [mainRun, serveLoop, hfs], ?_⟩
    simp only [mainRun, serveLoop, hfs]
    simp only [List.isEmpty_nil, if_true, List.cons_append, List.nil_append]
    rw [← List.cons_append, ← List.cons_append, List.getLast?_append_cons]
    rfl
  · have he : isException e = true := hbr e rfl
    refine ⟨by simp [mainRun, serveLoop, hfs, he], by simp [mainRun, serveLoop, hfs, he],
      by simp [mainRun, serveLoop, hfs, he], ?_⟩
    simp only [mainRun, serveLoop, hfs, he]
    simp only [List.isEmpty_nil, if_true, List.cons_append, List.nil_append]
    rw [← List.cons_append, ← List.cons_append, List.getLast?_append_cons]
    rfl

/-- Witness for C5 at a concrete environment: full document root, no
exception anywhere, interrupt during the serve loop. -/
theorem graceful_shutdown_witness :
    (mainRun (fun _ => fsAll) "/" "/app" none none true).outcome
        = Outcome.exitSuccess ∧
    Event.serve ∈ (mainRun (fun _ => fsAll) "/" "/app" none none true).events ∧
    Event.printMsg stopMsg
        ∈ (mainRun (fun _ => fsAll) "/" "/app" none none true).events ∧
    (mainRun (fun _ => fsAll) "/" "/app" none none true).events.getLast?
        = some Event.closeSocket :=
  graceful_shutdown (fun _ => fsAll) "/" "/app" none (by decide) (fun e h => nomatch h)

/-- C6: A browser-launch failure (any `Exception` raised by
`webbrowser.open`) is swallowed silently: the whole run, events and outcome,
is identical to the run where the call succeeds, and in particular the serve
loop is still entered. -/
theorem browser_failure_swallowed (world : String → FileSystem)
    (invokedFrom scriptDir : String) (bannerExc : Option (Nat × PyExc))
    (msg : String) (si : Bool) :
    mainRun world invokedFrom scriptDir bannerExc (some (PyExc.exception msg)) si
      = mainRun world invokedFrom scriptDir bannerExc none si ∧
    (missing_files (world scriptDir) = [] → bannerExc = none →
      Event.serve ∈ (mainRun world invokedFrom scriptDir bannerExc
        (some (PyExc.exception msg)) si).events) := by
  constructor
  · rcases bannerExc with _ | ⟨k, e⟩
    · simp [mainRun, isException]
    · rfl
  · intro hfs hbE
    subst hbE
    cases si <;> simp [mainRun, serveLoop, hfs, isException]

/-- Witness for C6: with the full document root and a failing browser
launch, the run equals the clean run and still serves. -/
theorem browser_failure_swallowed_witness :
    mainRun (fun _ => fsAll) "/" "/app" none (some (PyExc.exception "no browser")) true
      = mainRun (fun _ => fsAll) "/" "/app" none none true ∧
    Event.serve ∈ (mainRun (fun _ => fsAll) "/" "/app" none
      (some (PyExc.exception "no browser")) true).events :=
  ⟨(browser_failure_swallowed (fun _ => fsAll) "/" "/app" none "no browser" true).1,
   (browser_failure_swallowed (fun _ => fsAll) "/" "/app" none "no browser" true).2
     (by decide) rfl⟩

/-- C7: The very first event of every run is the change of working directory
to the script directory — before the required-file check prints anything and
before any bind — and the whole run is independent of the directory the
process was invoked from. -/
theorem chdir_first (world : String → FileSystem) (inv1 inv2 scriptDir : String)
    (bannerExc : Option (Nat × PyExc)) (browserExc : Option PyExc) (si : Bool) :
    (mainRun world inv1 scriptDir bannerExc browserExc si).events.head?
        = some (Event.chdir scriptDir) ∧
    mainRun world inv1 scriptDir bannerExc browserExc si
      = mainRun world inv2 scriptDir bannerExc browserExc si := by
  refine ⟨?_, rfl⟩
  rcases bannerExc with _ | ⟨k, e⟩
  · rcases browserExc with _ | e2
    · cases si <;> simp only [mainRun, serveLoop] <;> split_ifs <;> rfl
    · cases e2 <;> cases si <;> simp only [mainRun, serveLoop, isException] <;>
        split_ifs <;> rfl
  · simp only [mainRun]
    split_ifs <;> rfl

/-- C8: Whenever a run binds a socket, the address is the compiled-in
constant pair: host `localhost`, port `8000`; `main` has no host or port
inputs at all. -/
theorem fixed_bind_address (world : String → FileSystem)
    (invokedFrom scriptDir : String) (bannerExc : Option (Nat × PyExc))
    (browserExc : Option PyExc) (si : Bool) (h : String) (p : Nat)
    (hmem : Event.bind h p
      ∈ (mainRun world invokedFrom scriptDir bannerExc browserExc si).events) :
    h = "localhost" ∧ p = 8000 := by
  by_cases hc : (missing_files (world scriptDir)).isEmpty = true
  · rcases bannerExc with _ | ⟨k, e⟩
    · rcases browserExc with _ | e2
      · cases si <;> simp [mainRun, serveLoop, hc, HOST, PORT] at hmem <;> exact hmem
      · cases e2 <;> cases si <;>
          simp [mainRun, serveLoop, isException, hc, HOST, PORT] at hmem <;> exact hmem
    · simp [mainRun, hc, HOST, PORT] at hmem
      exact hmem.resolve_right
        (not_mem_printMsg_map _ k _ (fun s hcontra => Event.noConfusion hcontra))
  · simp [mainRun, hc] at hmem

/-- Witness for C8: the bind event of a concrete successful run, evaluated,
is exactly `bind "localhost" 8000`. -/
theorem fixed_bind_address_witness :
    "localhost" = "localhost" ∧ (8000 : Nat) = 8000 :=
  fixed_bind_address (fun _ => fsAll) "/" "/app" none none true "localhost" 8000
    (by decide)

/-- C9: The startup gate tests only `os.path.exists`: whenever each required
name has some entry — of any kind, directories included — the gate computes
no missing files and the run proceeds to bind. -/
theorem gate_existence_only (world : String → FileSystem)
    (invokedFrom scriptDir : String) (bannerExc : Option (Nat × PyExc))
    (browserExc : Option PyExc) (si : Bool)
    (hex : ∀ f ∈ required_files, osPathExists (world scriptDir) f = true) :
    missing_files (world scriptDir) = [] ∧
    Event.bind HOST PORT
      ∈ (mainRun world invokedFrom scriptDir bannerExc browserExc si).events := by
  have hfs : missing_files (world scriptDir) = [] := by
    unfold missing_files
    rw [List.filter_eq_nil_iff]
    intro a ha
    simp [hex a ha]
  exact ⟨hfs,
    bind_mem_of_gate_passes world invokedFrom scriptDir bannerExc browserExc si hfs⟩

/-- Witness for C9: a document root where all three required names are
directories still passes the gate and binds. -/
theorem gate_existence_only_witness :
    missing_files fsDirs = [] ∧
    Event.bind HOST PORT ∈ (mainRun (fun _ => fsDirs) "/" "/app" none none false).events :=
  gate_existence_only (fun _ => fsDirs) "/" "/app" none none false (by decide)

/-- C10: A `KeyboardInterrupt` delivered after the bind but before the serve
loop — during banner printing or during the browser-launch attempt — is not
caught (the browser guard catches only `Exception`, and the interrupt
handler covers only the `serve_forever` call): the run ends with the
interrupt uncaught, a non-zero process status, the serve loop never entered,
while the with-block still closes the listening socket. -/
theorem interrupt_before_serve_uncaught (world : String → FileSystem)
    (invokedFrom scriptDir : String) (k : Nat) (browserExc : Option PyExc) (si : Bool)
    (hfs : missing_files (world scriptDir) = []) :
    ((mainRun world invokedFrom scriptDir (some (k, PyExc.keyboardInterrupt))
        browserExc si).outcome = Outcome.uncaught PyExc.keyboardInterrupt ∧
     exitsNonZero (mainRun world invokedFrom scriptDir
        (some (k, PyExc.keyboardInterrupt)) browserExc si).outcome = true ∧
     Event.closeSocket ∈ (mainRun world invokedFrom scriptDir
        (some (k, PyExc.keyboardInterrupt)) browserExc si).events ∧
     Event.serve ∉ (mainRun world invokedFrom scriptDir
        (some (k, PyExc.keyboardInterrupt)) browserExc si).events) ∧
    ((mainRun world invokedFrom scriptDir none
        (some PyExc.keyboardInterrupt) si).outcome
          = Outcome.uncaught PyExc.keyboardInterrupt ∧
     exitsNonZero (mainRun world invokedFrom scriptDir none
        (some PyExc.keyboardInterrupt) si).outcome = true ∧
     Event.closeSocket ∈ (mainRun world invokedFrom scriptDir none
        (some PyExc.keyboardInterrupt) si).events ∧
     Event.serve ∉ (mainRun world invokedFrom scriptDir none
        (some PyExc.keyboardInterrupt) si).events) := by
  constructor
  · refine ⟨by simp [mainRun, hfs], by simp [mainRun, hfs, exitsNonZero],
      by simp [mainRun, hfs], ?_⟩
    intro hm
    simp [mainRun, hfs] at hm
    exact not_mem_printMsg_map Event.serve k (bannerMsgs scriptDir)
      (fun s hcontra => Event.noConfusion hcontra) hm
  · refine ⟨by simp [mainRun, hfs, isException], by simp [mainRun, hfs, isException, exitsNonZero],
      by simp [mainRun, hfs, isException], ?_⟩
    simp [mainRun, hfs, isException]

/-- Witness for C10 at a concrete environment: full document root, interrupt
after three banner lines, and interrupt during the browser launch. -/
theorem interrupt_before_serve_uncaught_witness :
    ((mainRun (fun _ => fsAll) "/" "/app" (some (3, PyExc.keyboardInterrupt))
        none false).outcome = Outcome.uncaught PyExc.keyboardInterrupt ∧
     exitsNonZero (mainRun (fun _ => fsAll) "/" "/app"
        (some (3, PyExc.keyboardInterrupt)) none false).outcome = true ∧
     Event.closeSocket ∈ (mainRun (fun _ => fsAll) "/" "/app"
        (some (3, PyExc.keyboardInterrupt)) none false).events ∧
     Event.serve ∉ (mainRun (fun _ => fsAll) "/" "/app"
        (some (3, PyExc.keyboardInterrupt)) none false).events) ∧
    ((mainRun (fun _ => fsAll) "/" "/app" none
        (some PyExc.keyboardInterrupt) false).outcome
          = Outcome.uncaught PyExc.keyboardInterrupt ∧
     exitsNonZero (mainRun (fun _ => fsAll) "/" "/app" none
        (some PyExc.keyboardInterrupt) false).outcome = true ∧
     Event.closeSocket ∈ (mainRun (fun _ => fsAll) "/" "/app" none
        (some PyExc.keyboardInterrupt) false).events ∧
     Event.serve ∉ (mainRun (fun _ => fsAll) "/" "/app" none
        (some PyExc.keyboardInterrupt) false).events) :=
  interrupt_before_serve_uncaught (fun _ => fsAll) "/" "/app" 3 none false (by decide)

end EventSchedulerServer
